import Mathlib

/-
  Verification development for the rendering-composition layer of the
  GodGotzi/three-d repository.

  Shallow embedding:
  * src/renderer/object.rs — the capability traits Shadable, Geometry, Object,
    Shadable2D are embedded as structures of state-passing functions
    ("trait-object dictionaries"): a value of the structure is a trait object,
    each method is a field.  Mutation of the global GPU bind state is made
    explicit by threading an abstract state type through every render call.
  * src/dust/model.rs — Model::create and Model::draw are embedded as explicit
    state transformers over a GL state that records the sequence of raw GL
    calls issued (vertex-array generation/binding, attribute uploads, draw
    submissions).
  Types of the excluded collaborators (Camera, Lights, Viewport, material
  parameters, GPU bind state) are abstract type parameters: the code under
  verification only passes them through.
-/

namespace ThreeD

/-- Error taxonomy of `ThreeDResult`.  Modelled from the spec: the concrete
error type lives in `crate::core` which is not among the sources; section 7
of the spec gives the taxonomy (ResourceBindFailure, AttributeMismatch,
PipelineStateError). -/
inductive RenderError where
  | resourceBindFailure : RenderError
  | attributeMismatch : RenderError
  | pipelineStateError : RenderError
deriving DecidableEq

/-- `ThreeDResult<T>` from the source: a `Result<T, Error>`. -/
abbrev ThreeDResult (α : Type) := Except RenderError α

/-- A `ForwardMaterial` trait object.  The code under src/ uses only its
`is_transparent` method (object.rs line 66); all other shader parameters are
opaque to the dispatch layer and summarised by the payload `params`. -/
structure ForwardMaterial (P : Type) where
  is_transparent : Bool
  params : P
deriving DecidableEq

/-- The `Shadable` capability contract (object.rs lines 233-257): render with
an externally supplied forward material, or render into the G-buffer with a
deferred material.  `σ` is the global GPU pipeline bind state the calls
mutate; note `render_deferred` receives no lights argument. -/
structure Shadable (FM DM Cam Li Vp σ : Type) where
  render_forward : FM → Cam → Li → σ → ThreeDResult Unit × σ
  render_deferred : DM → Cam → Vp → σ → ThreeDResult Unit × σ

/-- The `Shadable2D` capability contract (object.rs lines 284-295): 2D
variant, no camera transform. -/
structure Shadable2D (FM Vp σ : Type) where
  render_forward : FM → Vp → σ → ThreeDResult Unit × σ

/-- The `Geometry` capability contract (object.rs lines 192-197): extends
Shadable with a bounding-box query.  In the source `aabb` takes `&self` and
returns a reference into the geometry, so it is a pure projection of the
trait-object value. -/
structure Geometry (FM DM Cam Li Vp σ B : Type) extends Shadable FM DM Cam Li Vp σ where
  aabb : B

/-- The `Object` capability contract (object.rs lines 136-149): extends
Geometry with "render with my own material" and a transparency query.
`is_transparent` takes `&self` and returns a `bool`, hence a pure projection. -/
structure Object (FM DM Cam Li Vp σ B : Type) extends Geometry FM DM Cam Li Vp σ B where
  render : Cam → Li → σ → ThreeDResult Unit × σ
  is_transparent : Bool

/-- `Glue<G: Geometry, M: ForwardMaterial>` (object.rs lines 53-58): owns one
geometry and one material.  The geometry is represented by its trait-object
dictionary. -/
structure Glue (P DM Cam Li Vp σ B : Type) where
  geometry : Geometry (ForwardMaterial P) DM Cam Li Vp σ B
  material : ForwardMaterial P

/-- `impl Shadable for Glue` (object.rs lines 80-98): both calls delegate to
the geometry, passing the externally supplied material through. -/
def Glue.shadableImpl {P DM Cam Li Vp σ B : Type} (g : Glue P DM Cam Li Vp σ B) :
    Shadable (ForwardMaterial P) DM Cam Li Vp σ where
  render_forward := fun material camera lights s =>
    g.geometry.render_forward material camera lights s
  render_deferred := fun material camera viewport s =>
    g.geometry.render_deferred material camera viewport s

/-- `impl Geometry for Glue` (object.rs lines 120-124): `aabb` delegates to
the geometry. -/
def Glue.geometryImpl {P DM Cam Li Vp σ B : Type} (g : Glue P DM Cam Li Vp σ B) :
    Geometry (ForwardMaterial P) DM Cam Li Vp σ B where
  toShadable := g.shadableImpl
  aabb := g.geometry.aabb

/-- `impl Object for Glue` (object.rs lines 60-68): `render` delegates to
`self.geometry.render_forward(&self.material, camera, lights)` and
`is_transparent` to `self.material.is_transparent()`. -/
def Glue.objectImpl {P DM Cam Li Vp σ B : Type} (g : Glue P DM Cam Li Vp σ B) :
    Object (ForwardMaterial P) DM Cam Li Vp σ B where
  toGeometry := g.geometryImpl
  render := fun camera lights s =>
    g.geometry.render_forward g.material camera lights s
  is_transparent := g.material.is_transparent

/-- The reference-forwarding implementation `impl Shadable for &dyn Shadable`
(object.rs lines 259-277) and its `&Glue` twin (lines 100-118): every method
dereferences and calls the referent's method. -/
def Shadable.refImpl {FM DM Cam Li Vp σ : Type} (sh : Shadable FM DM Cam Li Vp σ) :
    Shadable FM DM Cam Li Vp σ where
  render_forward := fun material camera lights s =>
    sh.render_forward material camera lights s
  render_deferred := fun material camera viewport s =>
    sh.render_deferred material camera viewport s

/-- The reference-forwarding implementations `impl Geometry for &dyn Geometry`
and `impl Shadable for &dyn Geometry` (object.rs lines 199-223), and the
`&Glue` twin (lines 125-129). -/
def Geometry.refImpl {FM DM Cam Li Vp σ B : Type} (ge : Geometry FM DM Cam Li Vp σ B) :
    Geometry FM DM Cam Li Vp σ B where
  toShadable := ge.toShadable.refImpl
  aabb := ge.aabb

/-- The reference-forwarding implementations `impl Object for &dyn Object`,
`impl Shadable for &dyn Object`, `impl Geometry for &dyn Object`
(object.rs lines 151-185), and the `&Glue` twin (lines 70-78). -/
def Object.refImpl {FM DM Cam Li Vp σ B : Type} (o : Object FM DM Cam Li Vp σ B) :
    Object FM DM Cam Li Vp σ B where
  toGeometry := o.toGeometry.refImpl
  render := fun camera lights s => o.render camera lights s
  is_transparent := o.is_transparent

/-- The reference-forwarding implementation `impl Shadable2D for &dyn
Shadable2D` (object.rs lines 297-305). -/
def Shadable2D.refImpl {FM Vp σ : Type} (sh : Shadable2D FM Vp σ) :
    Shadable2D FM Vp σ where
  render_forward := fun material viewport s => sh.render_forward material viewport s

/-- Runs `render_deferred` in a world that also carries a lights
configuration: the call's signature (object.rs lines 251-256) offers the
lights no channel into the call, which this wrapper makes explicit. -/
def runDeferredWithLights {FM DM Cam Li Vp σ : Type} (sh : Shadable FM DM Cam Li Vp σ)
    (material : DM) (camera : Cam) (viewport : Vp) (lights : Li) (s : σ) :
    ThreeDResult Unit × σ :=
  let _ := lights
  sh.render_deferred material camera viewport s

/-- Observation of two successive `is_transparent()` calls on the same object
with no intervening mutation. -/
def Object.queryTransparentTwice {FM DM Cam Li Vp σ B : Type}
    (o : Object FM DM Cam Li Vp σ B) : Bool × Bool :=
  (o.is_transparent, o.is_transparent)

/-- Observation of an `aabb()` query against the ambient mutable state: the
query returns the box and the state it was run in. -/
def Geometry.queryAabb {FM DM Cam Li Vp σ B : Type}
    (ge : Geometry FM DM Cam Li Vp σ B) (s : σ) : B × σ :=
  (ge.aabb, s)

/-- Modelled from the spec: the deferred pipeline orchestrator
(`DeferredPipeline::geometry_pass`) is referenced by doc comments in
object.rs but its source is not under src/.  Per spec sections 4.5 and 7 the
geometry pass calls `render_deferred(synthetic_material, camera, viewport)`
on each Object of the caller-supplied collection in turn, aggregating
per-Object failures into a caller-visible list without aborting. -/
def geometry_pass {FM DM Cam Li Vp σ B : Type} (objs : List (Object FM DM Cam Li Vp σ B))
    (syntheticMaterial : DM) (camera : Cam) (viewport : Vp) (s : σ) :
    List RenderError × σ :=
  match objs with
  | [] => ([], s)
  | o :: rest =>
    let step := o.render_deferred syntheticMaterial camera viewport s
    let tail := geometry_pass rest syntheticMaterial camera viewport step.2
    match step.1 with
    | Except.ok _ => tail
    | Except.error e => (e :: tail.1, tail.2)

/-- Modelled from the spec: the deferred orchestrator's frame — the geometry
pass over all Objects, then a single full-screen lighting draw; any failure
of the lighting draw aborts the frame (spec sections 4.5 and 7).  The result
is the list of collected geometry-pass errors together with the frame's
outcome. -/
def deferred_render {FM DM Cam Li Vp σ B : Type} (objs : List (Object FM DM Cam Li Vp σ B))
    (syntheticMaterial : DM) (camera : Cam) (viewport : Vp)
    (lightingDraw : σ → ThreeDResult Unit × σ) (s : σ) :
    (List RenderError × ThreeDResult Unit) × σ :=
  let geo := geometry_pass objs syntheticMaterial camera viewport s
  let lit := lightingDraw geo.2
  match lit.1 with
  | Except.ok _ => ((geo.1, Except.ok ()), lit.2)
  | Except.error e => ((geo.1, Except.error e), lit.2)

end ThreeD

namespace Dust

/-- `enum Error` of src/dust/model.rs lines 5-7: it has no variants. -/
inductive Error where
deriving DecidableEq

/-- One raw GL call issued by the code in src/dust/model.rs; `α` is the type
of one vertex position (opaque numeric data passed through). -/
inductive GlCall (α : Type) where
  | genVertexArrays (id : Nat)
  | bindVertexArray (id : Nat)
  | addVertexAttribute (program : Nat) (attributeName : String) (data : List α)
  | applyMaterial (program : Nat)
  | drawArrays (mode : Nat) (first : Nat) (count : Nat)
deriving DecidableEq

/-- The numeric value of the `gl::TRIANGLES` primitive mode constant. -/
def GL_TRIANGLES : Nat := 4

/-- The GL context state the dust code mutates: a fresh-name supply for
vertex-array objects and the trace of GL calls issued so far. -/
structure GlState (α : Type) where
  nextVao : Nat
  calls : List (GlCall α)
deriving DecidableEq

/-- A dust mesh (`gust::mesh`, not among the sources).  The code under src/
consults `mesh.positions()` (model.rs line 26); main.rs additionally attaches
named custom attributes.  Modelled from the spec: geometry data is supplied
"as plain numeric arrays" of positions plus optional named attributes. -/
structure Mesh (α : Type) where
  positions : List α
  customAttributes : List (String × List α)
deriving DecidableEq

/-- The attribute names a mesh can supply: its positions (bound under the
name "Position" by Model::create) and its named custom attributes. -/
def Mesh.suppliedAttributes {α : Type} (m : Mesh α) : List String :=
  "Position" :: m.customAttributes.map Prod.fst

/-- A dust material (`dust::material`, not among the sources).  The code
under src/ uses its program handle and applies it.  The field
`requiredAttributes` is modelled from the spec: the shader/material compiler
supplies "a declared set of required vertex attributes by name" (spec
section 6). -/
structure Material where
  program : Nat
  requiredAttributes : List String
deriving DecidableEq

/-- `struct Model` of src/dust/model.rs lines 9-13 (the cloned gl context
handle carries no data in the model). -/
structure Model where
  id : Nat
  material : Material
deriving DecidableEq

/-- `Model::create` (src/dust/model.rs lines 18-29): generates and binds a
vertex array object, hands the mesh's positions to the material's program
under the attribute name "Position", and returns Ok. -/
def Model.create {α : Type} (material : Material) (mesh : Mesh α) (s : GlState α) :
    Except Error Model × GlState α :=
  let vao := s.nextVao
  let s1 : GlState α :=
    { nextVao := vao + 1,
      calls := s.calls ++
        [GlCall.genVertexArrays vao,
         GlCall.bindVertexArray vao,
         GlCall.addVertexAttribute material.program "Position" mesh.positions] }
  (Except.ok { id := vao, material := material }, s1)

/-- `Model::add_custom_attribute` (src/dust/model.rs lines 31-34). -/
def Model.add_custom_attribute {α : Type} (m : Model) (attributeName : String)
    (data : List α) (s : GlState α) : GlState α :=
  { s with calls := s.calls ++
      [GlCall.addVertexAttribute m.material.program attributeName data] }

/-- `Model::draw` (src/dust/model.rs lines 36-47): applies the material,
binds the model's vertex array and issues one
`DrawArrays(TRIANGLES, 0, 3)` submission — the vertex count is the literal 3,
independent of the mesh the model was created from. -/
def Model.draw {α : Type} (m : Model) (s : GlState α) : GlState α :=
  { s with calls := s.calls ++
      [GlCall.applyMaterial m.material.program,
       GlCall.bindVertexArray m.id,
       GlCall.drawArrays GL_TRIANGLES 0 3] }

/-- Whether a GL call is a draw submission. -/
def GlCall.isDraw {α : Type} : GlCall α → Bool
  | GlCall.drawArrays _ _ _ => true
  | _ => false

/-- The draw submissions a state transformer appended to the trace, starting
from state `s`. -/
def drawSubmissions {α : Type} (s after : GlState α) : List (GlCall α) :=
  (after.calls.drop s.calls.length).filter GlCall.isDraw

/-- A 3D vector as used by main.rs (`glm::Vec3`); components as exact
rationals. -/
structure Vec3 where
  x : Rat
  y : Rat
  z : Rat
deriving DecidableEq

/-- The camera constructed by main.rs line 45: position `(0,0,1)`, looking
toward `(0,0,-1)`, over a 900x700 window.  `Camera::create`'s internals
(dust::camera) are not among the sources, so the camera is an inert record
here. -/
structure CameraSetup where
  position : Vec3
  target : Vec3
  width : Nat
  height : Nat
deriving DecidableEq

/-- The camera of the end-to-end scenario (main.rs lines 28-29 and 45). -/
def mainCamera : CameraSetup :=
  { position := { x := 0, y := 0, z := 1 },
    target := { x := 0, y := 0, z := -1 },
    width := 900, height := 700 }

/-- The triangle vertex positions of main.rs lines 48-53. -/
def trianglePositions : List Vec3 :=
  [{ x := 1/2, y := -1/2, z := 0 },
   { x := -1/2, y := -1/2, z := 0 },
   { x := 0, y := 1/2, z := 0 }]

/-- The per-vertex colors of main.rs lines 54-59. -/
def triangleColors : List Vec3 :=
  [{ x := 1, y := 0, z := 0 },
   { x := 0, y := 1, z := 0 },
   { x := 0, y := 0, z := 1 }]

/-- The mesh of main.rs lines 60-62: created from the triangle positions,
with the colors attached as the custom attribute "Color". -/
def triangleMesh : Mesh Vec3 :=
  { positions := trianglePositions,
    customAttributes := [("Color", triangleColors)] }

/-- The solid/vertex-color material of main.rs line 63
(`TriangleMaterial::create`; its source is not under src/).  Modelled from
the spec: its program consumes the declared attributes Position and Color. -/
def triangleMaterial : Material :=
  { program := 1, requiredAttributes := ["Position", "Color"] }

/-- A fresh GL context state (GL object names start at 1; no calls issued). -/
def initialGlState : GlState Vec3 :=
  { nextVao := 1, calls := [] }

/-- The end-to-end scenario's model construction: `Model::create` applied to
the triangle mesh and material in a fresh context. -/
def triangleScenario : Except Error Model × GlState Vec3 :=
  Model.create triangleMaterial triangleMesh initialGlState

/-- The end-to-end scenario's frame: drawing the constructed model. -/
def triangleDrawState : GlState Vec3 :=
  match triangleScenario.1 with
  | Except.ok m => Model.draw m triangleScenario.2
  | Except.error _ => triangleScenario.2

end Dust

/-
  Theorems.
-/

namespace ThreeD

/-- Claim C1: for every geometry dictionary, material, camera, lights and
GPU state, `Glue{G,M}.render(camera, lights)` (object.rs lines 61-63) returns
the same result and performs the same state effect as calling
`G::render_forward` directly with Glue's stored material. -/
theorem glue_render_delegation {P DM Cam Li Vp sg B : Type}
    (g : Glue P DM Cam Li Vp sg B) (camera : Cam) (lights : Li) (s : sg) :
    g.objectImpl.render camera lights s
      = g.geometry.render_forward g.material camera lights s := rfl

/-- Claim C2: Glue's Shadable implementation (object.rs lines 80-98) passes
the externally supplied material through to the geometry unchanged, and its
result and effect are independent of Glue's stored material; the stored
material is consulted exactly by the Object-level `render` and
`is_transparent`. -/
theorem glue_shadable_material_passthrough {P DM Cam Li Vp sg B : Type}
    (geom : Geometry (ForwardMaterial P) DM Cam Li Vp sg B)
    (m₁ m₂ ext : ForwardMaterial P) (dmat : DM) (camera : Cam) (lights : Li)
    (viewport : Vp) (s : sg) :
    ((Glue.mk geom m₁).shadableImpl.render_forward ext camera lights s
       = geom.render_forward ext camera lights s) ∧
    ((Glue.mk geom m₁).shadableImpl.render_deferred dmat camera viewport s
       = geom.render_deferred dmat camera viewport s) ∧
    ((Glue.mk geom m₁).shadableImpl.render_forward ext camera lights s
       = (Glue.mk geom m₂).shadableImpl.render_forward ext camera lights s) ∧
    ((Glue.mk geom m₁).shadableImpl.render_deferred dmat camera viewport s
       = (Glue.mk geom m₂).shadableImpl.render_deferred dmat camera viewport s) ∧
    ((Glue.mk geom m₁).objectImpl.render camera lights s
       = geom.render_forward m₁ camera lights s) ∧
    ((Glue.mk geom m₁).objectImpl.is_transparent = m₁.is_transparent) :=
  ⟨rfl, rfl, rfl, rfl, rfl, rfl⟩

/-- Claim C3: the reference-forwarding implementations of object.rs (for
&Glue and the &dyn forms of Object, Geometry, Shadable, Shadable2D) return,
for every operation, exactly the result of the same operation on the
referent. -/
theorem ref_forwarding_equiv {FM DM Cam Li Vp sg B : Type}
    (o : Object FM DM Cam Li Vp sg B) (ge : Geometry FM DM Cam Li Vp sg B)
    (sh : Shadable FM DM Cam Li Vp sg) (s2 : Shadable2D FM Vp sg)
    (fm : FM) (dm : DM) (camera : Cam) (lights : Li) (viewport : Vp) (s : sg) :
    (o.refImpl.render camera lights s = o.render camera lights s ∧
     o.refImpl.is_transparent = o.is_transparent ∧
     o.refImpl.render_forward fm camera lights s = o.render_forward fm camera lights s ∧
     o.refImpl.render_deferred dm camera viewport s = o.render_deferred dm camera viewport s ∧
     o.refImpl.aabb = o.aabb) ∧
    (ge.refImpl.aabb = ge.aabb ∧
     ge.refImpl.render_forward fm camera lights s = ge.render_forward fm camera lights s ∧
     ge.refImpl.render_deferred dm camera viewport s = ge.render_deferred dm camera viewport s) ∧
    (sh.refImpl.render_forward fm camera lights s = sh.render_forward fm camera lights s ∧
     sh.refImpl.render_deferred dm camera viewport s = sh.render_deferred dm camera viewport s) ∧
    (s2.refImpl.render_forward fm viewport s = s2.render_forward fm viewport s) :=
  ⟨⟨rfl, rfl, rfl, rfl, rfl⟩, ⟨rfl, rfl, rfl⟩, ⟨rfl, rfl⟩, rfl⟩

/-- Claim C4: `render_deferred` receives no lights argument (object.rs lines
251-256), so running it under any two lights configurations, all else equal,
produces identical results and identical state effects. -/
theorem render_deferred_lights_noninterference {FM DM Cam Li Vp sg : Type}
    (sh : Shadable FM DM Cam Li Vp sg) (material : DM) (camera : Cam)
    (viewport : Vp) (l₁ l₂ : Li) (s : sg) :
    runDeferredWithLights sh material camera viewport l₁ s
      = runDeferredWithLights sh material camera viewport l₂ s := rfl

/-- Claim C7: `is_transparent()` is a pure projection of the object value
(two successive queries with no intervening mutation agree), and for Glue it
returns exactly the stored material's `is_transparent()` (object.rs lines
65-67). -/
theorem is_transparent_pure_and_glue_delegates {FM DM Cam Li Vp sg B P : Type}
    (o : Object FM DM Cam Li Vp sg B) (g : Glue P DM Cam Li Vp sg B) :
    (o.queryTransparentTwice.1 = o.queryTransparentTwice.2) ∧
    g.objectImpl.is_transparent = g.material.is_transparent := ⟨rfl, rfl⟩

/-- Claim C8: querying `aabb()` leaves the ambient mutable state untouched
and returns the geometry's box, and for Glue it returns exactly the
contained geometry's box (object.rs lines 120-124). -/
theorem aabb_pure_and_glue_delegates {FM DM Cam Li Vp sg B P : Type}
    (ge : Geometry FM DM Cam Li Vp sg B) (g : Glue P DM Cam Li Vp sg B)
    (s t : sg) :
    ((ge.queryAabb s).2 = s) ∧
    ((ge.queryAabb s).1 = ge.aabb) ∧
    (g.geometryImpl.aabb = g.geometry.aabb) ∧
    ((g.geometryImpl.queryAabb t).1 = g.geometry.aabb) :=
  ⟨rfl, rfl, rfl, rfl⟩

end ThreeD

namespace ThreeD

/-- Threading law for the geometry pass: the pass over a concatenation
processes the second block from the state the first block left behind, and
concatenates the collected error lists — errors in the first block never
short-circuit the second. -/
theorem geometry_pass_append {FM DM Cam Li Vp sg B : Type}
    (a b : List (Object FM DM Cam Li Vp sg B)) (dm : DM) (c : Cam) (v : Vp)
    (s : sg) :
    geometry_pass (a ++ b) dm c v s
      = ((geometry_pass a dm c v s).1
           ++ (geometry_pass b dm c v (geometry_pass a dm c v s).2).1,
         (geometry_pass b dm c v (geometry_pass a dm c v s).2).2) := by
  induction a generalizing s with
  | nil => simp [geometry_pass]
  | cons o rest ih =>
    simp only [List.cons_append, geometry_pass]
    cases h : (o.render_deferred dm c v s).1 with
    | ok u => simp [ih]
    | error e => simp [ih]

/-- Claim C6: a failing Object in the geometry pass does not abort the pass —
the Objects after it are still processed from the state its call left behind
and its error is collected into the caller-visible list — while a failing
lighting draw aborts the frame with an error outcome. -/
theorem deferred_error_isolation {FM DM Cam Li Vp sg B : Type}
    (pre post objs : List (Object FM DM Cam Li Vp sg B))
    (o : Object FM DM Cam Li Vp sg B) (dm : DM) (c : Cam) (v : Vp) (s : sg)
    (e : RenderError) (lightingDraw : sg → ThreeDResult Unit × sg) :
    ((o.render_deferred dm c v (geometry_pass pre dm c v s).2).1
        = Except.error e →
      geometry_pass (pre ++ o :: post) dm c v s
        = ((geometry_pass pre dm c v s).1
             ++ e :: (geometry_pass post dm c v
                  (o.render_deferred dm c v (geometry_pass pre dm c v s).2).2).1,
           (geometry_pass post dm c v
              (o.render_deferred dm c v (geometry_pass pre dm c v s).2).2).2)) ∧
    ((lightingDraw (geometry_pass objs dm c v s).2).1 = Except.error e →
      (deferred_render objs dm c v lightingDraw s).1.2 = Except.error e) := by
  constructor
  · intro h
    rw [geometry_pass_append]
    simp only [geometry_pass, h]
  · intro h
    simp only [deferred_render, h]

/-- A concrete object whose deferred render succeeds and bumps a counter
state. -/
def goodObject : Object Unit Unit Unit Unit Unit Nat Unit where
  render_forward := fun _ _ _ s => (Except.ok (), s + 1)
  render_deferred := fun _ _ _ s => (Except.ok (), s + 1)
  aabb := ()
  render := fun _ _ s => (Except.ok (), s + 1)
  is_transparent := false

/-- A concrete object whose deferred render fails with AttributeMismatch
after bumping the counter state. -/
def badObject : Object Unit Unit Unit Unit Unit Nat Unit where
  render_forward := fun _ _ _ s => (Except.error RenderError.attributeMismatch, s + 1)
  render_deferred := fun _ _ _ s => (Except.error RenderError.attributeMismatch, s + 1)
  aabb := ()
  render := fun _ _ s => (Except.error RenderError.attributeMismatch, s + 1)
  is_transparent := false

/-- A concrete lighting draw that fails with AttributeMismatch. -/
def failingLighting : Nat → ThreeDResult Unit × Nat :=
  fun s => (Except.error RenderError.attributeMismatch, s)

/-- Witness for C6: in the concrete scene good-bad-good, the failing middle
object's error is collected, both good objects are still processed (the
counter reaches 3), and a failing lighting draw makes the frame outcome an
error. -/
theorem deferred_error_isolation_witness :
    ((badObject.render_deferred () () () (geometry_pass [goodObject] () () () 0).2).1
        = Except.error RenderError.attributeMismatch) ∧
    geometry_pass ([goodObject] ++ badObject :: [goodObject]) () () () 0
      = ([RenderError.attributeMismatch], 3) ∧
    ((failingLighting (geometry_pass [badObject] () () () 0).2).1
        = Except.error RenderError.attributeMismatch) ∧
    (deferred_render [badObject] () () () failingLighting 0).1.2
      = Except.error RenderError.attributeMismatch := by
  have h := deferred_error_isolation [goodObject] [goodObject] [badObject]
    badObject () () () 0 RenderError.attributeMismatch failingLighting
  refine ⟨rfl, ?_, rfl, h.2 rfl⟩
  rw [h.1 rfl]
  rfl

end ThreeD

namespace Dust

/-- Claim C10: `Model::create` returns Ok for every material, mesh and GL
state, and the `Error` enum of model.rs has no inhabitants, so model
construction can never fail. -/
theorem model_create_never_fails :
    (∀ (α : Type) (mat : Material) (mesh : Mesh α) (s : GlState α),
      (Model.create mat mesh s).1 = Except.ok { id := s.nextVao, material := mat }) ∧
    (∀ e : Error, False) :=
  ⟨fun _ _ _ _ => rfl, fun e => nomatch e⟩

/-- Counterexample to claim C5 as stated: a material declaring the required
attribute "UV" on a mesh that supplies only "Position" still constructs
successfully — `Model::create` returns Ok rather than an AttributeMismatch
error. -/
theorem mismatch_construction_succeeds :
    ("UV" ∈ Material.requiredAttributes { program := 0, requiredAttributes := ["UV"] }) ∧
    ("UV" ∉ Mesh.suppliedAttributes { positions := [(0 : Nat), 1, 2], customAttributes := [] }) ∧
    (Model.create { program := 0, requiredAttributes := ["UV"] }
        { positions := [(0 : Nat), 1, 2], customAttributes := [] }
        { nextVao := 0, calls := [] }).1
      = Except.ok { id := 0, material := { program := 0, requiredAttributes := ["UV"] } } := by
  refine ⟨?_, ?_, rfl⟩ <;> decide

/-- Claim C5 amended: when a material requires a vertex attribute the
geometry cannot supply, the code raises no error at all — construction
always returns Ok, the requirement set is never consulted (the GL state
produced is independent of it), and the only attribute data bound is the
mesh's own positions under the name "Position" (no default data is
substituted, but no typed error is produced either; `Model::draw` returns no
result and cannot report a render-time error). -/
theorem model_create_no_attribute_check {α : Type} (mat : Material)
    (mesh : Mesh α) (s : GlState α) (reqs : List String) :
    ((Model.create mat mesh s).1 = Except.ok { id := s.nextVao, material := mat }) ∧
    ((Model.create mat mesh s).2.calls
      = s.calls ++
          [GlCall.genVertexArrays s.nextVao,
           GlCall.bindVertexArray s.nextVao,
           GlCall.addVertexAttribute mat.program "Position" mesh.positions]) ∧
    ((Model.create { mat with requiredAttributes := reqs } mesh s).2
      = (Model.create mat mesh s).2) :=
  ⟨rfl, rfl, rfl⟩

/-- Claim C9: `Model::draw` issues exactly one DrawArrays submission with
vertex count 3, for every model and GL state (the count is the literal 3 in
model.rs line 44, independent of the mesh); in the end-to-end scenario of
main.rs (camera at (0,0,1) toward (0,0,-1), one triangle with the given
vertices and a solid-color material) construction succeeds and the frame
issues exactly one draw submission covering the triangle's 3 vertices. -/
theorem model_draw_one_submission_three_vertices :
    (∀ (α : Type) (m : Model) (s : GlState α),
      drawSubmissions s (Model.draw m s) = [GlCall.drawArrays GL_TRIANGLES 0 3]) ∧
    (mainCamera.position = { x := 0, y := 0, z := 1 } ∧
     mainCamera.target = { x := 0, y := 0, z := -1 } ∧
     trianglePositions.length = 3 ∧
     triangleScenario.1 = Except.ok { id := 1, material := triangleMaterial } ∧
     drawSubmissions triangleScenario.2 triangleDrawState
       = [GlCall.drawArrays GL_TRIANGLES 0 3]) := by
  constructor
  · intro α m s
    simp [drawSubmissions, Model.draw, List.drop_left, GlCall.isDraw]
  · refine ⟨rfl, rfl, rfl, rfl, ?_⟩
    simp [drawSubmissions, triangleDrawState, triangleScenario, Model.create,
      Model.draw, List.drop_left, GlCall.isDraw, initialGlState]

end Dust
